import Mathlib

/-!
Verification of the tool-augmented dispatch loop and delegation protocol of
the Mimi repository, as a shallow embedding in Lean 4.

Embedded source files:
* `src/claudebot/web/server/app.py` — the web/SMS dispatch loop
  (`_chat_with_tools`, `chat`, `_sms_chat`, `_build_messages`, the in-memory
  `history` and `sms_history` stores).
* `src/agents/primary_agent.py` — the delegation router (`PrimaryAgent.chat`,
  `PrimaryAgent._parse_delegation`).
* `src/agents/specialized_agents.py` — the specialist catalog
  (`SpecializedAgentFactory.create_agent`, `get_all_agent_types`).
* `src/agents/base_agent.py` — `BaseAgent._execute_tool`.
* `src/agents/tools.py` — the `AgentTools` attribute table.

Modelling conventions: Python dicts that hold JSON data become the `Jv`
inductive below; the black-box completion provider (`client.messages.create`)
and the effectful tool handlers become explicit function parameters, so every
definition here is an executable function of its inputs; a Python exception
raised by a collaborator is an `Except.error` carrying `str(e)`.  Wall-clock
timestamps and the token-usage side channel (`_track_tokens`) are omitted:
no embedded behaviour reads them.
-/

namespace Mimi

/-- JSON-serialisable Python values, as produced by tool handlers and
consumed by `json.dumps`. -/
inductive Jv where
  | null
  | bool (b : Bool)
  | num (n : Int)
  | str (s : String)
  | arr (xs : List Jv)
  | obj (fields : List (String × Jv))

/-- Escaping applied by `json.dumps` to the characters that occur in this
development (quote, backslash, newline); other control characters do not
appear in any embedded string. -/
def escape_json_string (s : String) : String :=
  s.toList.foldl
    (fun acc c =>
      if c = '"' then acc ++ "\\\""
      else if c = '\\' then acc ++ "\\\\"
      else if c = '\n' then acc ++ "\\n"
      else acc.push c) ""

mutual

/-- `json.dumps` with the default separators `", "` and `": "`, as called at
`app.py:820` (`_json.dumps(result, default=str, ensure_ascii=False)`). -/
def dumps : Jv → String
  | .null => "null"
  | .bool b => if b then "true" else "false"
  | .num n => toString n
  | .str s => "\"" ++ escape_json_string s ++ "\""
  | .arr xs => "[" ++ dumps_list xs ++ "]"
  | .obj fs => "\x7b" ++ dumps_fields fs ++ "\x7d"

def dumps_list : List Jv → String
  | [] => ""
  | [x] => dumps x
  | x :: y :: xs => dumps x ++ ", " ++ dumps_list (y :: xs)

def dumps_fields : List (String × Jv) → String
  | [] => ""
  | [(k, v)] => "\"" ++ escape_json_string k ++ "\": " ++ dumps v
  | (k, v) :: y :: xs =>
      "\"" ++ escape_json_string k ++ "\": " ++ dumps v ++ ", " ++
        dumps_fields (y :: xs)

end

/-- Keyword arguments of a Python call / the `input` dict of a tool-use
block. -/
def Params := List (String × Jv)

/-- A content block of an Anthropic API response: a text block, or a
tool-use block `{id, name, input}`. -/
inductive ContentBlock where
  | text (s : String)
  | tool_use (id : String) (name : String) (input : Params)

/-- A completion-provider response: its `stop_reason` and its content
blocks. -/
structure Response where
  stop_reason : String
  content : List ContentBlock

/-- A `tool_result` dict as built in `_chat_with_tools` (`app.py:817-835`).
The source omits the `"is_error"` key on success, which the API reads as
false; the omission is modelled as `is_error = false`. -/
structure ToolResult where
  tool_use_id : String
  content : String
  is_error : Bool
deriving DecidableEq

/-- The content of one message of the conversation: plain text, assistant
content blocks, or a list of tool results. -/
inductive MsgContent where
  | text (s : String)
  | blocks (bs : List ContentBlock)
  | tool_results (rs : List ToolResult)

/-- One message of the ordered sequence sent to the provider. -/
structure Message where
  role : String
  content : MsgContent

/-- A registered tool handler: called with the keyword arguments of the
invocation, it returns a JSON-serialisable result or raises (`.error` with
the exception message). -/
def ToolHandler := Params → Except String Jv

/-- The completion provider, `client.messages.create` as a black box:
from the message sequence to a response, or an exception. -/
def Provider := List Message → Except String Response

/-- Processing of one content block of a tool-use response, from the body of
the `for block in assistant_content` loop at `app.py:809-835`: text blocks
produce nothing; a tool-use block produces exactly one tool result — the
dumped handler result, an `"Error: ..."` result if the handler raised, or a
`"Tool '...' not available."` result if the name is not registered. -/
def run_block (handlers : String → Option ToolHandler) :
    ContentBlock → Option ToolResult
  | .text _ => none
  | .tool_use id name input =>
    some <| match handlers name with
      | some handler =>
        match handler input with
        | .ok result => ⟨id, dumps result, false⟩
        | .error e => ⟨id, "Error: " ++ e, true⟩
      | none => ⟨id, "Tool \x27" ++ name ++ "\x27 not available.", true⟩

/-- All tool results of one round, in block order (`tool_results` at
`app.py:807-835`). -/
def process_blocks (handlers : String → Option ToolHandler)
    (blocks : List ContentBlock) : List ToolResult :=
  blocks.filterMap (run_block handlers)

/-- The two messages appended at the end of a tool round
(`app.py:838-839`): the raw assistant content, then a single user message
carrying all tool results of the round. -/
def round_messages (handlers : String → Option ToolHandler)
    (msgs : List Message) (resp : Response) : List Message :=
  msgs ++ [⟨"assistant", .blocks resp.content⟩,
           ⟨"user", .tool_results (process_blocks handlers resp.content)⟩]

/-- The `for _ in range(5)` loop of `_chat_with_tools` (`app.py:801-848`):
while the response asks for tools and fuel remains, execute the round and
call the provider again on the extended message sequence.  Returns the final
message sequence and response, or the provider's exception. -/
def chat_loop (provider : Provider) (handlers : String → Option ToolHandler) :
    Nat → List Message → Response → Except String (List Message × Response)
  | 0, msgs, resp => .ok (msgs, resp)
  | n + 1, msgs, resp =>
    if resp.stop_reason = "tool_use" then
      match provider (round_messages handlers msgs resp) with
      | .error e => .error e
      | .ok resp2 => chat_loop provider handlers n (round_messages handlers msgs resp) resp2
    else .ok (msgs, resp)

/-- Final text extraction of `_chat_with_tools` (`app.py:851-852`): the text
parts of the final response joined with newlines, `"Done."` when there are
none. -/
def extract_text (resp : Response) : String :=
  let parts := resp.content.filterMap fun b =>
    match b with
    | .text s => some s
    | _ => none
  if parts.isEmpty then "Done." else String.intercalate "\n" parts

/-- `_chat_with_tools(messages)` (`app.py:779-852`): initial provider call,
then at most five tool rounds, then text extraction.  A provider exception
propagates out (it is caught by the callers, `chat` and `_sms_chat`). -/
def chat_with_tools (provider : Provider)
    (handlers : String → Option ToolHandler) (messages : List Message) :
    Except String String :=
  match provider messages with
  | .error e => .error e
  | .ok resp =>
    match chat_loop provider handlers 5 messages resp with
    | .error e => .error e
    | .ok (_, final) => .ok (extract_text final)

/-- An entry of the in-memory web conversation `history` (`app.py:174,
928-933, 943`): the display role and text, plus the optional `api_content`
stored for user entries (timestamps omitted; nothing embedded reads them). -/
structure WebEntry where
  role : String
  content : String
  api_content : Option MsgContent

/-- `_build_messages()` (`app.py:226-233`): every history entry becomes an
API message; any role other than `"user"` (the source uses `"bot"`) maps to
`"assistant"`, and `api_content` is used when present, else the display
text. -/
def build_messages (history : List WebEntry) : List Message :=
  history.map fun entry =>
    ⟨if entry.role = "user" then "user" else "assistant",
     entry.api_content.getD (.text entry.content)⟩

/-- The conversation core of the `/api/chat` route (`app.py:890-952`) for a
plain text message (no file uploads): append the user entry (whose
`api_content` is the single text block built at `app.py:923`), run
`_chat_with_tools` on the rebuilt message sequence, turn a raised exception
into the `"[LINK ERROR] ..."` reply (`app.py:939-940`), and append the bot
entry carrying the reply (`app.py:943`).  Returns the new history and the
reply. -/
def chat_route (provider : Provider) (handlers : String → Option ToolHandler)
    (history : List WebEntry) (user_message : String) :
    List WebEntry × String :=
  let history1 := history ++
    [⟨"user", user_message, some (.blocks [.text user_message])⟩]
  let reply :=
    match chat_with_tools provider handlers (build_messages history1) with
    | .ok r => r
    | .error e => "[LINK ERROR] Something went sideways: " ++ e
  (history1 ++ [⟨"bot", reply, none⟩], reply)

/-- `SMS_MAX_HISTORY = 30` (`app.py:188`). -/
def SMS_MAX_HISTORY : Nat := 30

/-- The truncation `if len(h) > max: h = h[-max:]` applied to a session
history (`app.py:1064-1065`): once the length exceeds `maxLen`, keep only
the last `maxLen` entries — except that Python's `h[-0:]` is `h[0:]`
(`-0 == 0`), so at `maxLen = 0` the slice keeps the entire list. -/
def truncate_history {α : Type} (maxLen : Nat) (h : List α) : List α :=
  if h.length > maxLen then
    if maxLen = 0 then h else h.drop (h.length - maxLen)
  else h

/-- `_sms_chat(phone, user_text)` (`app.py:1056-1073`) acting on one phone's
history: append the incoming user message, truncate to `SMS_MAX_HISTORY`,
run `_chat_with_tools`, turn a raised exception into the
`"Something went sideways: ..."` reply, and append the assistant reply.
Returns the new history and the reply. -/
def sms_chat (provider : Provider) (handlers : String → Option ToolHandler)
    (h : List Message) (user_text : String) : List Message × String :=
  let h1 := h ++ [⟨"user", .text user_text⟩]
  let h2 := truncate_history SMS_MAX_HISTORY h1
  let reply :=
    match chat_with_tools provider handlers h2 with
    | .ok r => r
    | .error e => "Something went sideways: " ++ e
  (h2 ++ [⟨"assistant", .text reply⟩], reply)

/-! ### Delegation router (`src/agents/primary_agent.py`,
`src/agents/specialized_agents.py`) -/

/-- The whitespace characters of `str.strip()` and of JSON that occur in
this development (space, tab, newline, carriage return). -/
def is_py_space (c : Char) : Bool :=
  c == ' ' || c == '\t' || c == '\n' || c == '\r'

/-- `s.strip()`. -/
def py_strip (s : String) : String :=
  String.mk (((s.toList.dropWhile is_py_space).reverse.dropWhile
    is_py_space).reverse)

/-- `s.split('\n')`. -/
def split_lines_aux : List Char → List Char → List String
  | [], acc => [String.mk acc.reverse]
  | c :: cs, acc =>
    if c = '\n' then String.mk acc.reverse :: split_lines_aux cs []
    else split_lines_aux cs (c :: acc)

def py_split_newline (s : String) : List String :=
  split_lines_aux s.toList []

/-- `'\n'.join(lines)`. -/
def py_join_newline : List String → String
  | [] => ""
  | [s] => s
  | s :: t :: rest => s ++ "\n" ++ py_join_newline (t :: rest)

/-- `line.strip().startswith('{')`. -/
def strip_starts_with_brace (line : String) : Bool :=
  match (py_strip line).toList with
  | '\x7b' :: _ => true
  | _ => false

/-- Whitespace skipping inside a JSON text (`json.loads` accepts space, tab,
newline, carriage return between tokens). -/
def skip_ws : List Char → List Char
  | c :: cs =>
    if c = ' ' ∨ c = '\t' ∨ c = '\n' ∨ c = '\r' then skip_ws cs else c :: cs
  | [] => []

/-- A JSON string literal without escape sequences: the delegation markers
the primary-agent protocol exchanges (`primary_agent.py:66-80`) are flat
objects of plain strings; a text using escapes falls outside this model and
is treated as a parse failure. -/
def parse_json_string_aux : List Char → String → Option (String × List Char)
  | [], _ => none
  | '"' :: cs, acc => some (acc, cs)
  | '\\' :: _, _ => none
  | c :: cs, acc => parse_json_string_aux cs (acc.push c)

def parse_json_string : List Char → Option (String × List Char)
  | '"' :: cs => parse_json_string_aux cs ""
  | _ => none

/-- The members of a flat JSON object of string keys and string values:
`"k" : "v"` pairs separated by commas, ended by `}`.  Fuelled by the input
length. -/
def parse_members : Nat → List Char → Option (List (String × String) × List Char)
  | 0, _ => none
  | fuel + 1, cs =>
    match parse_json_string (skip_ws cs) with
    | none => none
    | some (k, cs1) =>
      match skip_ws cs1 with
      | ':' :: cs2 =>
        match parse_json_string (skip_ws cs2) with
        | none => none
        | some (v, cs3) =>
          match skip_ws cs3 with
          | ',' :: cs4 =>
            match parse_members fuel cs4 with
            | some (rest, cs5) => some ((k, v) :: rest, cs5)
            | none => none
          | '\x7d' :: cs4 => some ([(k, v)], cs4)
          | _ => none
      | _ => none

/-- `json.loads` restricted to the delegation-marker subset: a single flat
JSON object whose keys and values are plain strings (no escapes, no nested
values).  `none` models `json.JSONDecodeError` — which, for the texts the
delegation protocol defines, coincides with Python's behaviour. -/
def json_loads_flat (s : String) : Option (List (String × String)) :=
  match skip_ws s.toList with
  | '\x7b' :: cs1 =>
    match skip_ws cs1 with
    | '\x7d' :: cs2 => if skip_ws cs2 = [] then some [] else none
    | cs1' =>
      match parse_members (cs1'.length + 1) cs1' with
      | some (fields, rest) => if skip_ws rest = [] then some fields else none
      | none => none
  | _ => none

/-- `dict.get(k)` on the dict `json.loads` builds: with duplicate keys the
last occurrence wins, hence the reversed association lookup. -/
def dict_get (d : List (String × String)) (k : String) : Option String :=
  d.reverse.lookup k

/-- `sub in s` — contiguous substring test, used for the
`'"action"' in line` checks of `_parse_delegation`. -/
def is_prefix_chars : List Char → List Char → Bool
  | [], _ => true
  | _ :: _, [] => false
  | a :: as_, b :: bs => a = b && is_prefix_chars as_ bs

def contains_substr_aux (needle : List Char) : List Char → Bool
  | [] => is_prefix_chars needle []
  | c :: cs => is_prefix_chars needle (c :: cs) || contains_substr_aux needle cs

def contains_substr (hay needle : String) : Bool :=
  contains_substr_aux needle.toList hay.toList

/-- The line scan of `PrimaryAgent._parse_delegation`
(`primary_agent.py:92-107`): for each line that starts (after stripping)
with `{` and contains both `"action"` and `"delegate"`, try to parse the
line alone; on a decode error try the joined tail from that line on; a
successful parse is returned only when its `"action"` is `"delegate"`,
otherwise scanning continues with the next line. -/
def parse_delegation_lines : List String → Option (List (String × String))
  | [] => none
  | line :: rest =>
    if strip_starts_with_brace line && contains_substr line "\"action\""
        && contains_substr line "\"delegate\"" then
      match json_loads_flat line with
      | some d =>
        if dict_get d "action" = some "delegate" then some d
        else parse_delegation_lines rest
      | none =>
        match json_loads_flat (py_join_newline (line :: rest)) with
        | some d =>
          if dict_get d "action" = some "delegate" then some d
          else parse_delegation_lines rest
        | none => parse_delegation_lines rest
    else parse_delegation_lines rest

/-- `PrimaryAgent._parse_delegation(response)` (`primary_agent.py:86-111`). -/
def parse_delegation (response : String) : Option (List (String × String)) :=
  parse_delegation_lines (py_split_newline (py_strip response))

/-- The keys of the `agent_creators` dict of
`SpecializedAgentFactory.create_agent` (`specialized_agents.py:217-224`),
which coincide with `get_all_agent_types().keys()`. -/
def known_agent_types : List String :=
  ["research", "marketing", "seo", "digital_marketing",
   "project_management", "web_development"]

/-- `str(e)` of the `ValueError` raised by `create_agent` for an unknown
type (`specialized_agents.py:228`). -/
def unknown_type_msg (agent_type : String) : String :=
  "Unknown agent type: " ++ agent_type ++ ". Available types: [\x27research\x27, \x27marketing\x27, \x27seo\x27, \x27digital_marketing\x27, \x27project_management\x27, \x27web_development\x27]"

/-- `SpecializedAgentFactory.create_agent` (`specialized_agents.py:205-230`)
at the granularity the router observes: success for a catalogued type,
a raised `ValueError` otherwise.  (The constructed `BaseAgent` itself is
the `specialistChat` oracle of `primary_chat`.) -/
def create_agent (agent_type : String) : Except String Unit :=
  if agent_type ∈ known_agent_types then .ok ()
  else .error (unknown_type_msg agent_type)

/-- The synthesis prompt built at `primary_agent.py:158-164`. -/
def synthesis_prompt (agent_type specialist_response : String) : String :=
  "The " ++ agent_type ++ " specialist provided this response to the user\x27s request:\n\n---\n" ++ specialist_response ++ "\n---\n\nPlease synthesize this into a helpful response for the user. Add any additional context or suggestions if appropriate."

/-- The dict returned by `PrimaryAgent.chat` (`primary_agent.py:123-188`),
with `Option` for the keys some branches omit (`delegated` is absent from
the invalid-format branch, `specialist_response` and `error` from most). -/
structure ChatResult where
  response : String
  agent_used : String
  specialist_response : Option String
  delegated : Option Bool
  error : Option String
deriving DecidableEq

/-- `PrimaryAgent.chat(message)` (`primary_agent.py:123-188`).
`agentChat` is the primary `BaseAgent.chat` oracle (called on the user
message and, after a delegation, on the synthesis prompt); `specialistChat`
is the specialist oracle, `specialistChat t task` standing for
`self._get_or_create_specialist(t).chat(task)` — the per-type caching of
`_get_or_create_specialist` does not affect which call is made.
`BaseAgent.chat` itself never raises (every provider/tool failure is caught
inside it), so the `except` branch of the source is reached exactly when
`create_agent` raises. -/
def primary_chat (agentChat : String → String)
    (specialistChat : String → String → String) (message : String) :
    ChatResult :=
  let primary_response := agentChat message
  match parse_delegation primary_response with
  | none => ⟨primary_response, "primary", none, some false, none⟩
  | some delegation =>
    match dict_get delegation "agent", dict_get delegation "task" with
    | some agent_type, some task =>
      if agent_type = "" ∨ task = "" then
        ⟨"I wanted to delegate this task, but encountered an error in the delegation format.",
         "primary", none, none, some "Invalid delegation format"⟩
      else
        match create_agent agent_type with
        | .error e =>
          ⟨"I attempted to delegate to the " ++ agent_type ++
             " specialist, but encountered an error: " ++ e,
           "primary", none, some false, some e⟩
        | .ok _ =>
          let specialist_response := specialistChat agent_type task
          let final_response :=
            agentChat (synthesis_prompt agent_type specialist_response)
          ⟨final_response, agent_type, some specialist_response, some true, none⟩
    | _, _ =>
      ⟨"I wanted to delegate this task, but encountered an error in the delegation format.",
       "primary", none, none, some "Invalid delegation format"⟩

/-! ### `AgentTools` and `BaseAgent._execute_tool`
(`src/agents/tools.py`, `src/agents/base_agent.py`) -/

/-- `str(x)` for the values that reach the f-string of the `web_search`
mock; container reprs are approximated by their JSON dump (only the `.str`
case is exercised by the protocol). -/
def py_str : Jv → String
  | .str s => s
  | .num n => toString n
  | .bool b => if b then "True" else "False"
  | .null => "None"
  | v => dumps v

/-- Lookup of a keyword argument. -/
def get_param (ps : Params) (k : String) : Option Jv :=
  ps.reverse.lookup k

/-- The mock result list of `AgentTools.web_search` (`tools.py:23-30`). -/
def web_search_results (query : String) (n : Nat) : List Jv :=
  (List.range n).map fun i =>
    .obj [("title", .str ("Search result " ++ toString (i + 1) ++ " for: " ++ query)),
          ("url", .str ("https://example.com/result" ++ toString (i + 1))),
          ("snippet", .str ("This is a mock search result for \x27" ++ query ++ "\x27. In production, integrate a real search API."))]

/-- `AgentTools.web_search(query, num_results=5)` (`tools.py:14-32`) called
with keyword arguments: a missing `query` or an unexpected keyword is the
`TypeError` Python raises at the call site, a non-integer `num_results` the
`TypeError` of `range`; a negative count yields an empty range, as in
Python. -/
def web_search (ps : Params) : Except String Jv :=
  if ps.any (fun kv => kv.1 ≠ "query" ∧ kv.1 ≠ "num_results") then
    .error "web_search() got an unexpected keyword argument"
  else
    match get_param ps "query" with
    | none => .error "web_search() missing 1 required positional argument: \x27query\x27"
    | some q =>
      match get_param ps "num_results" with
      | some (.num m) =>
        .ok (.obj [("tool", .str "web_search"), ("query", q),
                   ("results", .arr (web_search_results (py_str q) m.toNat)),
                   ("note", .str "This is a mock implementation. Integrate Tavily, Brave Search, or Google Custom Search API for real results.")])
      | some _ => .error "\x27num_results\x27 object cannot be interpreted as an integer"
      | none =>
        .ok (.obj [("tool", .str "web_search"), ("query", q),
                   ("results", .arr (web_search_results (py_str q) 5)),
                   ("note", .str "This is a mock implementation. Integrate Tavily, Brave Search, or Google Custom Search API for real results.")])

/-- `AgentTools.list_available_tools()` (`tools.py:157-166`): takes no
arguments (a keyword argument is the call-site `TypeError`) and returns the
five documented tool names. -/
def list_available_tools (ps : Params) : Except String Jv :=
  match ps with
  | [] => .ok (.arr [.str "web_search", .str "fetch_webpage",
                     .str "execute_code", .str "read_file", .str "write_file"])
  | (k, _) :: _ =>
    .error ("list_available_tools() got an unexpected keyword argument \x27" ++ k ++ "\x27")

/-- The docstring block returned by `AgentTools.get_tool_descriptions`
(`tools.py:168-187`), verbatim. -/
def tool_descriptions_text : String :=
  "\nAvailable Tools:\n1. web_search(query, num_results=5) - Search the web for information\n2. fetch_webpage(url) - Fetch and extract text from a webpage\n3. execute_code(code, language=\"python\") - Execute Python code safely\n4. read_file(filepath) - Read content from a file\n5. write_file(filepath, content) - Write content to a file\n\nTo use a tool, format your response as JSON:\n\x7b\n    \"tool\": \"tool_name\",\n    \"parameters\": \x7b\n        \"param1\": \"value1\",\n        \"param2\": \"value2\"\n    \x7d\n\x7d\n"

/-- `AgentTools.get_tool_descriptions()` (`tools.py:168-187`): takes no
arguments and returns the docstring block — a plain string, not a dict,
which `_execute_tool` passes through unchanged. -/
def get_tool_descriptions (ps : Params) : Except String Jv :=
  match ps with
  | [] => .ok (.str tool_descriptions_text)
  | (k, _) :: _ =>
    .error ("get_tool_descriptions() got an unexpected keyword argument \x27" ++ k ++ "\x27")

/-- The four `AgentTools` methods whose bodies perform I/O (network,
subprocess, filesystem): each is a black-box function from its keyword
arguments to a returned value or a raised exception.  Their source bodies
catch their own I/O errors and return error dicts, but nothing
`_execute_tool` does depends on that, so the environment is kept free. -/
structure ToolsEnv where
  fetch_webpage : Params → Except String Jv
  execute_code : Params → Except String Jv
  read_file : Params → Except String Jv
  write_file : Params → Except String Jv

/-- The attribute table of an `AgentTools` instance as declared in the class
body (`tools.py:11-187`), in declaration order — the attributes
`getattr(self.tools, tool_name, None)` can resolve.  Attributes inherited
from `object` (dunders) are outside this embedding. -/
def agent_tools_attrs (env : ToolsEnv) : List (String × (Params → Except String Jv)) :=
  [("web_search", web_search),
   ("fetch_webpage", env.fetch_webpage),
   ("execute_code", env.execute_code),
   ("read_file", env.read_file),
   ("write_file", env.write_file),
   ("list_available_tools", list_available_tools),
   ("get_tool_descriptions", get_tool_descriptions)]

/-- The declared attribute names of `AgentTools`. -/
def agent_tools_attr_names : List String :=
  ["web_search", "fetch_webpage", "execute_code", "read_file", "write_file",
   "list_available_tools", "get_tool_descriptions"]

/-- The `try/except` wrapper of `_execute_tool` (`base_agent.py:74-78`)
around one attribute call: the returned value passes through, a raised
exception becomes the `"Tool execution failed: ..."` error dict. -/
def wrap_outcome (o : Except String Jv) : Jv :=
  match o with
  | .ok v => v
  | .error e => .obj [("error", .str ("Tool execution failed: " ++ e))]

/-- `BaseAgent._execute_tool(tool_name, parameters)` (`base_agent.py:65-78`):
the tools-disabled guard, `getattr`-based resolution over the attribute
table, the `"Tool '...' not found"` dict when no attribute matches, and the
exception-catching call.  Total: no exception escapes. -/
def execute_tool (env : ToolsEnv) (tools_enabled : Bool) (tool_name : String)
    (parameters : Params) : Jv :=
  if !tools_enabled then
    .obj [("error", .str "Tools are not enabled for this agent")]
  else
    match (agent_tools_attrs env).lookup tool_name with
    | none => .obj [("error", .str ("Tool \x27" ++ tool_name ++ "\x27 not found"))]
    | some tool_method => wrap_outcome (tool_method parameters)

/-! ### Concrete collaborators used to exercise the model -/

/-- The empty tool registry. -/
def handlers0 : String → Option ToolHandler := fun _ => none

/-- A registry with one registered tool whose handler always raises. -/
def handlers_boom : String → Option ToolHandler := fun name =>
  if name = "boom_tool" then some (fun _ => .error "kaboom") else none

/-- A provider that immediately returns a plain final answer. -/
def provider_final : Provider := fun _ => .ok ⟨"end_turn", [.text "ok"]⟩

/-- A provider that returns the final answer `"after"`. -/
def provider_after : Provider := fun _ => .ok ⟨"end_turn", [.text "after"]⟩

/-- A provider that always requests a tool, never a final answer, with
partial text `"partial"`. -/
def provider_always_tools : Provider := fun _ =>
  .ok ⟨"tool_use", [.text "partial", .tool_use "tu1" "lookup" []]⟩

/-- A provider that always raises. -/
def provider_fail : Provider := fun _ => .error "boom"

/-! ### Shared lemmas -/

/-- The only exceptions `chat_loop` lets escape are provider exceptions:
every tool failure is converted in-loop, so an `.error` outcome always
exhibits a failing provider call. -/
theorem chat_loop_error_from_provider (provider : Provider)
    (handlers : String → Option ToolHandler) :
    ∀ (n : Nat) (msgs : List Message) (resp : Response) (e : String),
      chat_loop provider handlers n msgs resp = .error e →
        ∃ m, provider m = .error e := by
  intro n
  induction n with
  | zero =>
    intro msgs resp e h
    simp [chat_loop] at h
  | succ n ih =>
    intro msgs resp e h
    unfold chat_loop at h
    split at h
    · cases hp : provider (round_messages handlers msgs resp) with
      | error e2 =>
        rw [hp] at h
        simp only [Except.error.injEq] at h
        subst h
        exact ⟨_, hp⟩
      | ok r2 =>
        rw [hp] at h
        exact ih _ _ _ h
    · simp at h

/-- Ids of the tool results of a round, in block order: one per tool-use
block, whatever each handler did. -/
theorem process_blocks_ids (handlers : String → Option ToolHandler)
    (blocks : List ContentBlock) :
    (process_blocks handlers blocks).map ToolResult.tool_use_id =
      blocks.filterMap (fun b => match b with
        | ContentBlock.tool_use i _ _ => some i
        | _ => none) := by
  induction blocks with
  | nil => rfl
  | cons b bs ih =>
    cases b with
    | text s => simpa [process_blocks, run_block] using ih
    | tool_use i nm inp =>
      simp only [process_blocks, List.filterMap_cons, run_block, List.map_cons,
        List.cons.injEq]
      refine ⟨?_, ih⟩
      cases hf : handlers nm with
      | none => rfl
      | some f =>
        cases hi : f inp with
        | ok v => simp [hi]
        | error e => simp [hi]

/-- One tool round of the loop: a tool-use response leads to the two
appended messages of `round_messages` and the follow-up provider response is
consumed with one unit of fuel spent. -/
theorem chat_loop_step (provider : Provider)
    (handlers : String → Option ToolHandler) (n : Nat) (msgs : List Message)
    (resp r2 : Response) (hs : resp.stop_reason = "tool_use")
    (hp : provider (round_messages handlers msgs resp) = .ok r2) :
    chat_loop provider handlers (n + 1) msgs resp =
      chat_loop provider handlers n (round_messages handlers msgs resp) r2 := by
  simp only [chat_loop]
  rw [if_pos hs, hp]

/-- Appending one round's two messages. -/
theorem round_messages_length (handlers : String → Option ToolHandler)
    (msgs : List Message) (resp : Response) :
    (round_messages handlers msgs resp).length = msgs.length + 2 := by
  simp [round_messages]

/-- Against a provider that always requests tools, `chat_loop` burns its
whole fuel, two appended messages per round, and ends on a response the
provider actually produced. -/
theorem chat_loop_always_tools (provider : Provider)
    (handlers : String → Option ToolHandler)
    (hall : ∀ m, ∃ r, provider m = .ok r ∧ r.stop_reason = "tool_use") :
    ∀ (n : Nat) (msgs : List Message) (resp : Response),
      provider msgs = .ok resp → resp.stop_reason = "tool_use" →
      ∃ m r, provider m = .ok r ∧ m.length = msgs.length + 2 * n ∧
        chat_loop provider handlers n msgs resp = .ok (m, r) := by
  intro n
  induction n with
  | zero =>
    intro msgs resp hresp _hs
    exact ⟨msgs, resp, hresp, by omega, rfl⟩
  | succ n ih =>
    intro msgs resp hresp hs
    obtain ⟨r1, h1, s1⟩ := hall (round_messages handlers msgs resp)
    obtain ⟨m, r, hp, hlen, heq⟩ := ih (round_messages handlers msgs resp) r1 h1 s1
    refine ⟨m, r, hp, ?_, ?_⟩
    · rw [round_messages_length] at hlen
      omega
    · rw [chat_loop_step provider handlers n msgs resp r1 hs h1]
      exact heq

/-! ### Claims -/

/-- C1 counterexample: with a completion provider that raises, the web chat
route still appends a `"bot"` (assistant-side) entry for the failed round —
the final history maps to roles `["user", "bot"]`, not `["user"]` — so the
claim that no assistant message is appended is false on the code. -/
theorem provider_error_appends_bot_entry :
    ((chat_route provider_fail handlers0 [] "hi").1).map WebEntry.role =
        ["user", "bot"] ∧
      (chat_route provider_fail handlers0 [] "hi").2 =
        "[LINK ERROR] Something went sideways: boom" :=
  ⟨rfl, rfl⟩

/-- C1 (amended): when the completion provider raises, the round is
abandoned without retry, the error is surfaced to the caller in the reply as
a `"[LINK ERROR] ..."` message, the user's entry remains persisted — and a
bot entry carrying that error text is appended to the history for the
failed round. -/
theorem provider_error_surfaced_and_logged
    (provider : Provider) (handlers : String → Option ToolHandler)
    (history : List WebEntry) (u e : String)
    (herr : chat_with_tools provider handlers
        (build_messages (history ++ [⟨"user", u, some (.blocks [.text u])⟩])) =
      .error e) :
    chat_route provider handlers history u =
      (history ++ [⟨"user", u, some (.blocks [.text u])⟩,
        ⟨"bot", "[LINK ERROR] Something went sideways: " ++ e, none⟩],
       "[LINK ERROR] Something went sideways: " ++ e) := by
  simp only [chat_route, herr]
  simp [List.append_assoc]

/-- C1 (amended) witness. -/
theorem provider_error_surfaced_and_logged_witness :
    chat_route provider_fail handlers0 [] "hi" =
      ([⟨"user", "hi", some (.blocks [.text "hi"])⟩,
        ⟨"bot", "[LINK ERROR] Something went sideways: " ++ "boom", none⟩],
       "[LINK ERROR] Something went sideways: " ++ "boom") := by
  have h := provider_error_surfaced_and_logged provider_fail handlers0 [] "hi"
    "boom" rfl
  simpa using h

/-- C3 counterexample: against a provider that always requests a tool, the
loop returns exactly the unmodified partial text `"partial"` — no
budget-exceeded indicator of any kind accompanies it (in particular the
output has no occurrence of "budget" or "exceeded"). -/
theorem budget_exhaustion_no_indicator :
    chat_with_tools provider_always_tools handlers0 [] = .ok "partial" ∧
      contains_substr "partial" "budget" = false ∧
      contains_substr "partial" "exceeded" = false :=
  ⟨rfl, rfl, rfl⟩

/-- C3 (amended): for every provider that always returns a tool request and
never a final answer, the dispatch loop stops after the fixed maximum of
five round-trips (the final provider call sees the ten messages appended by
the five executed rounds) and returns the text parts of the provider's last
response — the last partial text — with no budget-exceeded indicator
attached. -/
theorem budget_exhaustion_stops_after_five
    (provider : Provider) (handlers : String → Option ToolHandler)
    (msgs : List Message)
    (hall : ∀ m, ∃ r, provider m = .ok r ∧ r.stop_reason = "tool_use") :
    ∃ m r, provider m = .ok r ∧ m.length = msgs.length + 10 ∧
      chat_with_tools provider handlers msgs = .ok (extract_text r) := by
  obtain ⟨r0, h0, s0⟩ := hall msgs
  obtain ⟨m, r, hp, hlen, heq⟩ :=
    chat_loop_always_tools provider handlers hall 5 msgs r0 h0 s0
  refine ⟨m, r, hp, by omega, ?_⟩
  unfold chat_with_tools
  rw [h0]
  show (match chat_loop provider handlers 5 msgs r0 with
        | Except.error e => (Except.error e : Except String String)
        | Except.ok (_, final) => Except.ok (extract_text final)) =
      Except.ok (extract_text r)
  rw [heq]

/-- C3 (amended) witness. -/
theorem budget_exhaustion_stops_after_five_witness :
    ∃ m r, provider_always_tools m = .ok r ∧
      m.length = ([] : List Message).length + 10 ∧
      chat_with_tools provider_always_tools handlers0 [] =
        .ok (extract_text r) :=
  budget_exhaustion_stops_after_five provider_always_tools handlers0 []
    (fun _ => ⟨⟨"tool_use", [.text "partial", .tool_use "tu1" "lookup" []]⟩,
      rfl, rfl⟩)

/-- C4: a tool invocation whose registered handler raises never propagates
the exception: the round records a ToolResult with `is_error = true` whose
content carries the exception message, and any exception that does escape
the loop is a provider exception, never a handler one. -/
theorem handler_exception_becomes_error_result
    (handlers : String → Option ToolHandler) (tid name : String)
    (input : Params) (f : ToolHandler) (e : String)
    (hf : handlers name = some f) (he : f input = .error e) :
    run_block handlers (.tool_use tid name input) =
        some ⟨tid, "Error: " ++ e, true⟩ ∧
      ∀ (provider : Provider) (n : Nat) (msgs : List Message)
        (resp : Response) (e2 : String),
        chat_loop provider handlers n msgs resp = .error e2 →
          ∃ m, provider m = .error e2 := by
  refine ⟨by simp [run_block, hf, he], ?_⟩
  intro provider
  exact chat_loop_error_from_provider provider handlers

/-- C4 witness: the always-raising handler of `handlers_boom` yields the
error ToolResult. -/
theorem handler_exception_becomes_error_result_witness :
    run_block handlers_boom (.tool_use "t1" "boom_tool" []) =
        some ⟨"t1", "Error: " ++ "kaboom", true⟩ ∧
      ∀ (provider : Provider) (n : Nat) (msgs : List Message)
        (resp : Response) (e2 : String),
        chat_loop provider handlers_boom n msgs resp = .error e2 →
          ∃ m, provider m = .error e2 :=
  handler_exception_becomes_error_result handlers_boom "t1" "boom_tool" []
    (fun _ => .error "kaboom") "kaboom" rfl rfl

/-- C5: an invocation of an unregistered tool yields a ToolResult with
`is_error = true` whose content names the unavailable tool, and the round
containing it is still followed by a provider call in the same turn — the
loop consumes that follow-up response instead of aborting. -/
theorem unknown_tool_error_result_and_continue
    (handlers : String → Option ToolHandler) (tid name : String)
    (input : Params) (blocks : List ContentBlock)
    (hf : handlers name = none)
    (hb : ContentBlock.tool_use tid name input ∈ blocks) :
    (⟨tid, "Tool \x27" ++ name ++ "\x27 not available.", true⟩ : ToolResult) ∈
        process_blocks handlers blocks ∧
      ∀ (provider : Provider) (n : Nat) (msgs : List Message) (r2 : Response),
        provider (round_messages handlers msgs ⟨"tool_use", blocks⟩) = .ok r2 →
        r2.stop_reason ≠ "tool_use" →
        chat_loop provider handlers (n + 1) msgs ⟨"tool_use", blocks⟩ =
          .ok (round_messages handlers msgs ⟨"tool_use", blocks⟩, r2) := by
  constructor
  · exact List.mem_filterMap.mpr ⟨_, hb, by simp [run_block, hf]⟩
  · intro provider n msgs r2 hp hr2
    simp only [chat_loop]
    rw [if_pos trivial, hp]
    show chat_loop provider handlers n
        (round_messages handlers msgs ⟨"tool_use", blocks⟩) r2 =
      .ok (round_messages handlers msgs ⟨"tool_use", blocks⟩, r2)
    cases n with
    | zero => rfl
    | succ n =>
      simp only [chat_loop]
      rw [if_neg hr2]

/-- C5 witness: the tool `"nonexistent"` requested against the empty
registry. -/
theorem unknown_tool_error_result_and_continue_witness :
    (⟨"t1", "Tool \x27" ++ "nonexistent" ++ "\x27 not available.", true⟩ : ToolResult) ∈
        process_blocks handlers0 [ContentBlock.tool_use "t1" "nonexistent" []] ∧
      chat_loop provider_after handlers0 1 []
          ⟨"tool_use", [ContentBlock.tool_use "t1" "nonexistent" []]⟩ =
        .ok (round_messages handlers0 []
              ⟨"tool_use", [ContentBlock.tool_use "t1" "nonexistent" []]⟩,
             ⟨"end_turn", [.text "after"]⟩) := by
  have h := unknown_tool_error_result_and_continue handlers0 "t1" "nonexistent"
    [] [ContentBlock.tool_use "t1" "nonexistent" []] rfl (by simp)
  exact ⟨h.1, h.2 provider_after 0 [] ⟨"end_turn", [.text "after"]⟩ rfl (by decide)⟩

/-- C6: in a tool round, every tool-use block is answered by exactly one
ToolResult carrying its correlation id (in block order, and a failing
invocation does not block the others), and the round appends its results as
the single tool-result message of `round_messages` before the next provider
call is consumed. -/
theorem tool_round_results_correlate (handlers : String → Option ToolHandler)
    (blocks : List ContentBlock) :
    (process_blocks handlers blocks).map ToolResult.tool_use_id =
        blocks.filterMap (fun b => match b with
          | ContentBlock.tool_use i _ _ => some i
          | _ => none) ∧
      ∀ (provider : Provider) (n : Nat) (msgs : List Message)
        (resp r2 : Response),
        resp.stop_reason = "tool_use" →
        provider (round_messages handlers msgs resp) = .ok r2 →
        chat_loop provider handlers (n + 1) msgs resp =
          chat_loop provider handlers n (round_messages handlers msgs resp) r2 := by
  refine ⟨process_blocks_ids handlers blocks, ?_⟩
  intro provider n msgs resp r2 hs hp
  simp only [chat_loop]
  rw [if_pos hs, hp]

/-- C6 witness: a round with one raising handler and one unknown tool still
answers both invocations, in order. -/
theorem tool_round_results_correlate_witness :
    (process_blocks handlers_boom [ContentBlock.text "hi",
          ContentBlock.tool_use "a" "boom_tool" [],
          ContentBlock.tool_use "b" "other" []]).map ToolResult.tool_use_id =
        ["a", "b"] ∧
      chat_loop provider_after handlers_boom 1 []
          ⟨"tool_use", [ContentBlock.tool_use "a" "boom_tool" []]⟩ =
        chat_loop provider_after handlers_boom 0
          (round_messages handlers_boom []
            ⟨"tool_use", [ContentBlock.tool_use "a" "boom_tool" []]⟩)
          ⟨"end_turn", [.text "after"]⟩ := by
  have h := tool_round_results_correlate handlers_boom
    [ContentBlock.text "hi", ContentBlock.tool_use "a" "boom_tool" [],
     ContentBlock.tool_use "b" "other" []]
  have h2 := tool_round_results_correlate handlers_boom
    [ContentBlock.tool_use "a" "boom_tool" []]
  exact ⟨h.1.trans (by rfl), h2.2 provider_after 0 [] _ _ rfl rfl⟩

/-- C8 counterexample: truncating a one-message history to a maximum of
`M = 0 < N = 1` does not retain exactly the last `0` messages — the Python
slice `h[-0:]` is `h[0:]`, so the entire history is kept and the retained
length is `1`, not `0`. -/
theorem truncation_at_zero_keeps_all :
    (0 : Nat) < ([0] : List Nat).length ∧
      truncate_history 0 ([0] : List Nat) = [0] ∧
      (truncate_history 0 ([0] : List Nat)).length ≠ 0 := by
  decide

/-- C8 (amended): truncating a history of `N` messages to a maximum
`0 < M < N` keeps exactly the last `M` messages in their original relative
order (the result is the unique length-`M` suffix: the oldest entries are
dropped first); at `M = 0` the `-0 == 0` slicing quirk keeps the entire
history instead. -/
theorem truncation_keeps_last_in_order {α : Type} (h : List α) (M : Nat)
    (hM0 : 0 < M) (hM : M < h.length) :
    (truncate_history M h).length = M ∧ (truncate_history M h).IsSuffix h := by
  unfold truncate_history
  rw [if_pos hM, if_neg (by omega)]
  refine ⟨?_, h.take (h.length - M), List.take_append_drop _ _⟩
  rw [List.length_drop]
  omega

/-- C8 (amended) witness. -/
theorem truncation_keeps_last_in_order_witness :
    (truncate_history 2 [0, 1, 2, 3]).length = 2 ∧
      (truncate_history 2 [0, 1, 2, 3]).IsSuffix [0, 1, 2, 3] :=
  truncation_keeps_last_in_order [0, 1, 2, 3] 2 (by decide) (by decide)

/-- C9: after any completed SMS turn the per-phone history holds at most
`SMS_MAX_HISTORY + 1` messages — the cap is applied after appending the
user message and before appending the reply — and a full history reaches
exactly `SMS_MAX_HISTORY + 1`, one past the configured maximum. -/
theorem sms_history_bound (provider : Provider)
    (handlers : String → Option ToolHandler) :
    (∀ (h : List Message) (u : String),
        ((sms_chat provider handlers h u).1).length ≤ SMS_MAX_HISTORY + 1) ∧
      ((sms_chat provider_final handlers0
          (List.replicate 30 ⟨"user", .text "m"⟩) "hi").1).length =
        SMS_MAX_HISTORY + 1 := by
  constructor
  · intro h u
    simp only [sms_chat, List.length_append, List.length_cons,
      List.length_nil]
    have : (truncate_history SMS_MAX_HISTORY
        (h ++ [⟨"user", .text u⟩])).length ≤ SMS_MAX_HISTORY := by
      unfold truncate_history
      split
      · rw [if_neg (by decide : ¬(SMS_MAX_HISTORY = 0)), List.length_drop]
        omega
      · next hle =>
        simp only [gt_iff_lt, not_lt] at hle
        exact hle
    omega
  · rfl

/-- A primary-agent oracle whose answer is a delegation marker naming the
unknown specialist type `"cooking"`. -/
def agent_chat_cooking : String → String := fun _ =>
  "\x7b\"action\": \"delegate\", \"agent\": \"cooking\", \"task\": \"make pasta\"\x7d"

/-- A primary-agent oracle that delegates the first message to the `"seo"`
specialist and synthesizes afterwards. -/
def agent_chat_seo : String → String := fun s =>
  if s = "hi" then
    "\x7b\"action\": \"delegate\", \"agent\": \"seo\", \"task\": \"optimize\"\x7d"
  else "synthesized: " ++ s

/-- A specialist oracle. -/
def specialist_chat0 : String → String → String := fun _ _ => "specialist answer"

/-- C2 counterexample: with a primary answer that is a valid delegation
marker naming the unknown type `"cooking"`, the turn does not return the
primary's unmodified answer — it returns the delegation-failure explanation
(with `delegated = false`), so the claim's "returns the primary's unmodified
answer" is false on the code. -/
theorem unknown_specialist_not_original_answer :
    (primary_chat agent_chat_cooking specialist_chat0 "hi").response ≠
        agent_chat_cooking "hi" ∧
      (primary_chat agent_chat_cooking specialist_chat0 "hi").delegated =
        some false := by
  constructor
  · decide
  · rfl

/-- C2 (amended): a syntactically valid delegation marker naming a
specialist type outside the catalog yields — without any exception reaching
the caller — a delegation-failure result: an explanatory message (not the
primary's original answer), `agent_used = "primary"`, `delegated = false`,
and the `ValueError` text recorded in the `error` field. -/
theorem unknown_specialist_failure_result
    (agentChat : String → String) (specialistChat : String → String → String)
    (message t task : String) (d : List (String × String))
    (hparse : parse_delegation (agentChat message) = some d)
    (hag : dict_get d "agent" = some t)
    (htask : dict_get d "task" = some task)
    (ht : t ∉ known_agent_types) (htne : t ≠ "") (htaskne : task ≠ "") :
    primary_chat agentChat specialistChat message =
      ⟨"I attempted to delegate to the " ++ t ++
         " specialist, but encountered an error: " ++ unknown_type_msg t,
       "primary", none, some false, some (unknown_type_msg t)⟩ := by
  simp only [primary_chat, hparse, hag, htask]
  rw [if_neg (by simp [htne, htaskne])]
  simp only [create_agent, if_neg ht]

/-- C2 (amended) witness. -/
theorem unknown_specialist_failure_result_witness :
    primary_chat agent_chat_cooking specialist_chat0 "hi" =
      ⟨"I attempted to delegate to the " ++ "cooking" ++
         " specialist, but encountered an error: " ++ unknown_type_msg "cooking",
       "primary", none, some false, some (unknown_type_msg "cooking")⟩ :=
  unknown_specialist_failure_result agent_chat_cooking specialist_chat0 "hi"
    "cooking" "make pasta"
    [("action", "delegate"), ("agent", "cooking"), ("task", "make pasta")]
    (by decide) (by decide) (by decide) (by decide) (by decide) (by decide)

/-- C7: a valid delegation marker naming a known specialist type with a
non-empty task makes the router invoke that specialist on exactly the
marker's task field, and the returned result is tagged `delegated = true`
with the specialist type in `agent_used`, carrying the specialist's answer
and the synthesized final reply. -/
theorem known_specialist_delegation
    (agentChat : String → String) (specialistChat : String → String → String)
    (message t task : String) (d : List (String × String))
    (hparse : parse_delegation (agentChat message) = some d)
    (hag : dict_get d "agent" = some t)
    (htask : dict_get d "task" = some task)
    (ht : t ∈ known_agent_types) (htaskne : task ≠ "") :
    primary_chat agentChat specialistChat message =
      ⟨agentChat (synthesis_prompt t (specialistChat t task)), t,
       some (specialistChat t task), some true, none⟩ := by
  have htne : t ≠ "" := by
    simp only [known_agent_types, List.mem_cons, List.mem_singleton,
      List.not_mem_nil, or_false] at ht
    rcases ht with rfl | rfl | rfl | rfl | rfl | rfl <;> decide
  simp only [primary_chat, hparse, hag, htask]
  rw [if_neg (by simp [htne, htaskne])]
  simp only [create_agent, if_pos ht]

/-- C7 witness. -/
theorem known_specialist_delegation_witness :
    primary_chat agent_chat_seo specialist_chat0 "hi" =
      ⟨agent_chat_seo (synthesis_prompt "seo" (specialist_chat0 "seo" "optimize")),
       "seo", some (specialist_chat0 "seo" "optimize"), some true, none⟩ :=
  known_specialist_delegation agent_chat_seo specialist_chat0 "hi" "seo"
    "optimize" [("action", "delegate"), ("agent", "seo"), ("task", "optimize")]
    (by decide) (by decide) (by decide) (by decide) (by decide)

/-- Association lookup misses exactly the keys outside the key column. -/
theorem lookup_eq_none_iff {β : Type} (l : List (String × β)) (k : String) :
    l.lookup k = none ↔ k ∉ l.map Prod.fst := by
  induction l with
  | nil => simp [List.lookup]
  | cons a l ih =>
    obtain ⟨key, v⟩ := a
    by_cases h : k = key
    · subst h
      simp [List.lookup]
    · simp only [List.lookup, beq_eq_false_iff_ne.mpr h, List.map_cons,
        List.mem_cons, h, false_or]
      exact ih

/-- An environment for the four effectful tools that records nothing. -/
def tools_env0 : ToolsEnv :=
  ⟨fun _ => .ok .null, fun _ => .ok .null, fun _ => .ok .null, fun _ => .ok .null⟩

/-- C10: `_execute_tool` dispatches by attribute lookup over the whole
`AgentTools` attribute table, so every declared attribute — including
`get_tool_descriptions`, which is not one of the five documented tools — is
called with the given parameters when named (a raised exception becoming the
`"Tool execution failed"` dict, never escaping); the `"Tool ... not found"`
dict is produced exactly for names with no such attribute. -/
theorem execute_tool_attribute_dispatch
    (env : ToolsEnv) (ps : Params) (name : String)
    (f : Params → Except String Jv)
    (hf : (agent_tools_attrs env).lookup name = some f) :
    execute_tool env true name ps = wrap_outcome (f ps) ∧
      execute_tool env true "get_tool_descriptions" ps =
        wrap_outcome (get_tool_descriptions ps) ∧
      (∀ nm, (agent_tools_attrs env).lookup nm = none ↔
        nm ∉ agent_tools_attr_names) ∧
      ∀ nm, (agent_tools_attrs env).lookup nm = none →
        execute_tool env true nm ps =
          .obj [("error", .str ("Tool \x27" ++ nm ++ "\x27 not found"))] := by
  refine ⟨by simp [execute_tool, hf], rfl, ?_, ?_⟩
  · intro nm
    have h := lookup_eq_none_iff (agent_tools_attrs env) nm
    rwa [show (agent_tools_attrs env).map Prod.fst = agent_tools_attr_names
      from rfl] at h
  · intro nm h
    simp [execute_tool, h]

/-- C10 witness. -/
theorem execute_tool_attribute_dispatch_witness :
    execute_tool tools_env0 true "web_search" [("query", .str "x")] =
        wrap_outcome (web_search [("query", .str "x")]) ∧
      execute_tool tools_env0 true "get_tool_descriptions" [("query", .str "x")] =
        wrap_outcome (get_tool_descriptions [("query", .str "x")]) ∧
      (∀ nm, (agent_tools_attrs tools_env0).lookup nm = none ↔
        nm ∉ agent_tools_attr_names) ∧
      ∀ nm, (agent_tools_attrs tools_env0).lookup nm = none →
        execute_tool tools_env0 true nm [("query", .str "x")] =
          .obj [("error", .str ("Tool \x27" ++ nm ++ "\x27 not found"))] :=
  execute_tool_attribute_dispatch tools_env0 [("query", .str "x")] "web_search"
    web_search rfl

end Mimi
